import Mathlib

/-!
Shallow embedding of `src/graph.py` (bribe-analytics dashboard).

The Python source has two parts relevant to verification:
  * `get_data_as_dataframe` (lines 17-31): pooled data access with a
    `try/finally` that returns the connection to the pool.
  * five aggregation functions (`plot_bribe_amount_distribution`,
    `plot_total_bribe_amount_by_state`, `plot_bribes_over_time`,
    `plot_top_departments_by_bribe_amount`,
    `plot_top_districts_by_bribe_amount`) that post-process a pandas
    DataFrame obtained from a fixed SQL query.

Monetary amounts are modelled as rationals (`ℚ`); pandas DataFrames as a
column list plus row-major cell lists; the pandas primitives used by the
source (`pd.cut`, `Series.value_counts` on a categorical,
`pd.to_datetime(errors=coerce)`, `groupby(...).size()`) are embedded by
definitions that follow their documented semantics on the inputs the
source feeds them.
-/

namespace Bribe

/-- A cell value of a DataFrame: numeric, string, or null (None/NaN/NaT). -/
inductive Value where
  | num (q : ℚ)
  | str (s : String)
  | null
deriving DecidableEq, Repr

/-- Row-major pandas DataFrame model: column names plus rows of cells
(each row's cells aligned with `cols`). -/
structure DataFrame where
  cols : List String
  rows : List (List Value)
deriving DecidableEq, Repr

/-- pandas `df.empty`: true when either axis has length zero. -/
def DataFrame.empty (df : DataFrame) : Bool :=
  df.rows.isEmpty || df.cols.isEmpty

/-- Column projection `df[c]`: `none` when the column is absent
(pandas raises `KeyError` there), otherwise the cells of that column. -/
def DataFrame.getCol (df : DataFrame) (c : String) : Option (List Value) :=
  match df.cols.findIdx? (fun s => s == c) with
  | none => none
  | some i => some (df.rows.map (fun r => r.getD i Value.null))

/-- Errors a call can raise: connection-pool acquisition failure, query
execution failure, missing-column `KeyError`, and `TypeError` from pandas
numeric operations on non-numeric cells. -/
inductive Err where
  | connError
  | queryError
  | keyError
  | typeError
deriving DecidableEq, Repr

/-! ### Data access layer (`get_data_as_dataframe`, lines 17-31)

The pool (`psycopg2.pool.SimpleConnectionPool`) is modelled by the number
of currently borrowed connections plus a counter of `putconn` calls, so
that "the connection is returned on every exit path" and "no return call
happens when acquisition itself fails" are both observable. -/

/-- Observable pool state: how many connections are currently borrowed
and how many `putconn` calls have been made. -/
structure PoolState where
  borrowed : Nat
  putconnCalls : Nat
deriving DecidableEq, Repr

/-- `connection_pool.getconn()`: borrows one connection. -/
def getconn (ps : PoolState) : PoolState :=
  { ps with borrowed := ps.borrowed + 1 }

/-- `connection_pool.putconn(conn)`: returns one connection. -/
def putconn (ps : PoolState) : PoolState :=
  { borrowed := ps.borrowed - 1, putconnCalls := ps.putconnCalls + 1 }

/-- Outcome of `cur.execute` + `cur.fetchall` on the acquired connection:
either the fetched rows (as dict-rows, i.e. a column list plus row cells)
or an exception raised mid-statement. -/
inductive QueryOutcome where
  | fetched (cols : List String) (rows : List (List Value))
  | raiseQuery
deriving DecidableEq, Repr

/-- Embedding of `get_data_as_dataframe` (lines 17-31).  `connAvail` is
false when `connection_pool.getconn()` itself raises (pool exhausted /
connectivity failure): then `conn` is still `None`, so the `finally`
block skips `putconn` and the exception propagates.  When acquisition
succeeds, the `finally` block runs `putconn` on both the success path and
the query-error path.  An empty fetch returns the empty `pd.DataFrame()`. -/
def get_data_as_dataframe (ps : PoolState) (connAvail : Bool)
    (outcome : QueryOutcome) : Except Err DataFrame × PoolState :=
  if connAvail then
    let ps1 := getconn ps
    match outcome with
    | QueryOutcome.fetched cols rows =>
        if rows.isEmpty then (Except.ok ⟨[], []⟩, putconn ps1)
        else (Except.ok ⟨cols, rows⟩, putconn ps1)
    | QueryOutcome.raiseQuery => (Except.error Err.queryError, putconn ps1)
  else (Except.error Err.connError, ps)

/-- One data-access call whose query raises mid-statement. -/
def failingCall (ps : PoolState) : PoolState :=
  (get_data_as_dataframe ps true QueryOutcome.raiseQuery).2

/-! ### Amount distribution (`plot_bribe_amount_distribution`, lines 33-71) -/

/-- The finite bin edges of line 42; the 13th edge is `float('inf')`,
represented implicitly (the last bucket has no upper bound). -/
def bin_edges : List ℚ :=
  [0, 500, 1000, 1500, 2000, 3000, 5000, 10000, 20000, 30000, 40000, 50000]

/-- The bin labels of lines 44-48. -/
def bin_labels : List String :=
  ["₹1-500", "₹501-1000", "₹1001-1500", "₹1501-2000", "₹2001-3000",
   "₹3001-5000", "₹5001-10000", "₹10001-20000", "₹20001-30000",
   "₹30001-40000", "₹40001-50000", ">₹50000"]

/-- `pd.cut(-, bins=bin_edges ++ [inf], right=True)` membership test for
bucket `i` (`0 ≤ i < 12`): the half-open interval `(edgeᵢ, edgeᵢ₊₁]`,
where the upper edge of the last bucket is `+∞`.  Values `≤ 0` fall below
the first edge and belong to no bucket (pandas assigns `NaN`). -/
def inBin (i : Nat) (x : ℚ) : Bool :=
  decide (bin_edges.getD i 0 < x) &&
    (decide (bin_edges.length ≤ i + 1) || decide (x ≤ bin_edges.getD (i + 1) 0))

/-- The bucket `pd.cut` assigns to an amount, `none` for `NaN` (out of
range below the first edge). -/
def bucketIdx (x : ℚ) : Option Nat :=
  (List.range 12).find? (fun i => inBin i x)

/-- Embedding of lines 52-60: `pd.cut`, then `value_counts()` on the
resulting categorical column (which reports every category, including
those with count zero, and silently drops `NaN` cells), then re-ordering
by the categorical order `bin_labels`.  The result is the
`(range-label, count)` rows of `bribe_counts` in label order. -/
def distributionCounts (amts : List ℚ) : List (String × Nat) :=
  (List.range bin_labels.length).map
    (fun i => (bin_labels.getD i "", amts.countP (fun x => inBin i x)))

/-- A numeric-column cell as pandas binning sees it: numbers bin
normally, nulls (`NaN`) bin to `NaN` and are dropped by `value_counts`,
strings make `pd.cut` raise a `TypeError`. -/
def valToNum : Value → Except Err (Option ℚ)
  | Value.num q => Except.ok (some q)
  | Value.null => Except.ok none
  | Value.str _ => Except.error Err.typeError

/-- Embedding of `plot_bribe_amount_distribution` (lines 33-71) as a
function of the upstream DataFrame: returns `ok none` ("no data") only
when `df.empty`; otherwise accesses column `bribe_amt` (raising
`KeyError` when absent — the code has no column-presence check) and
emits the binned counts. -/
def plot_bribe_amount_distribution (df : DataFrame) :
    Except Err (Option (List (String × Nat))) :=
  if df.empty then Except.ok none
  else
    match df.getCol "bribe_amt" with
    | none => Except.error Err.keyError
    | some col =>
      match col.mapM valToNum with
      | Except.error e => Except.error e
      | Except.ok opts =>
          Except.ok (some (distributionCounts (opts.filterMap id)))

/-! ### Grouped totals (the SQL of lines 75-80, 126-132, 149-155)

The grouping/summing/ordering/limiting happens inside PostgreSQL
(`GROUP BY key`, `SUM(bribe_amt)`, `ORDER BY total_amount DESC`,
optionally `LIMIT n`).  We embed that relational semantics over the
`(key, bribe_amt)` projection of the `bribe` fact table.  `ORDER BY`
descending is a non-strict sort; ties at equal sums are broken by the
engine's arbitrary but deterministic order, modelled here by a stable
insertion sort. -/

/-- Descending comparison on summed amounts. -/
def amtGE (a b : String × ℚ) : Prop := b.2 ≤ a.2

instance : DecidableRel amtGE := fun a b => by
  unfold amtGE; infer_instance

instance : IsTotal (String × ℚ) amtGE :=
  ⟨fun a b => by unfold amtGE; exact le_total b.2 a.2⟩

instance : IsTrans (String × ℚ) amtGE :=
  ⟨fun _ _ _ hab hbc => le_trans hbc hab⟩

/-- `SELECT key, SUM(bribe_amt) ... GROUP BY key ORDER BY total_amount
DESC`: one row per distinct key with the summed amount, sorted
descending (non-strictly) by the sum. -/
def groupTotals (rows : List (String × ℚ)) : List (String × ℚ) :=
  let keys := (rows.map Prod.fst).dedup
  let totals := keys.map
    (fun k => (k, ((rows.filter (fun r => decide (r.1 = k))).map Prod.snd).sum))
  totals.insertionSort amtGE

/-- The same query with `LIMIT n` appended (lines 131, 154). -/
def topNTotals (n : Nat) (rows : List (String × ℚ)) : List (String × ℚ) :=
  (groupTotals rows).take n

/-- Default `top_n` of `plot_top_departments_by_bribe_amount` (line 124). -/
def departments_default_top_n : Nat := 15

/-- Default `top_n` of `plot_top_districts_by_bribe_amount` (line 147). -/
def districts_default_top_n : Nat := 20

/-- Embedding of `plot_total_bribe_amount_by_state` (lines 73-92) as a
function of the upstream DataFrame: "no data" (`ok none`) when the frame
is empty or either expected column is absent; otherwise the frame is
charted as-is. -/
def plot_total_bribe_amount_by_state (df : DataFrame) :
    Except Err (Option DataFrame) :=
  if df.empty || !(df.cols.contains "state_ut")
      || !(df.cols.contains "total_amount") then Except.ok none
  else Except.ok (some df)

/-- Embedding of `plot_top_departments_by_bribe_amount` (lines 124-145),
post-query part: same shape with columns `dept` / `total_amount`. -/
def plot_top_departments_by_bribe_amount (df : DataFrame) :
    Except Err (Option DataFrame) :=
  if df.empty || !(df.cols.contains "dept")
      || !(df.cols.contains "total_amount") then Except.ok none
  else Except.ok (some df)

/-- Embedding of `plot_top_districts_by_bribe_amount` (lines 147-168),
post-query part: same shape with columns `district` / `total_amount`. -/
def plot_top_districts_by_bribe_amount (df : DataFrame) :
    Except Err (Option DataFrame) :=
  if df.empty || !(df.cols.contains "district")
      || !(df.cols.contains "total_amount") then Except.ok none
  else Except.ok (some df)

/-! ### Monthly time series (`plot_bribes_over_time`, lines 94-122) -/

/-- Split a character list on `-` (used to parse `YYYY-MM-DD`). -/
def splitOnDash (cs : List Char) : List (List Char) :=
  cs.foldr
    (fun c acc =>
      if c = '-' then [] :: acc
      else
        match acc with
        | [] => [[c]]
        | g :: gs => (c :: g) :: gs)
    [[]]

/-- Numeric value of an all-digit character list, `none` on any
non-digit character. -/
def digitsToNat (cs : List Char) : Option Nat :=
  cs.foldl
    (fun acc c =>
      match acc with
      | none => none
      | some n => if c.isDigit then some (n * 10 + (c.toNat - 48)) else none)
    (some 0)

/-- Embedding of `pd.to_datetime(-, errors=coerce)` followed by
`.dt.to_period(M)` on the ISO `YYYY-MM-DD` strings this system stores:
yields the `(year, month)` pair, or `none` (`NaT`, later dropped by
`dropna`) when the string is not a well-formed date. -/
def parseDate (s : String) : Option (Nat × Nat) :=
  match splitOnDash s.toList with
  | [y, m, d] =>
    match digitsToNat y, digitsToNat m, digitsToNat d with
    | some yn, some mn, some dn =>
        if y.length = 4 ∧ m.length = 2 ∧ d.length = 2 ∧
            1 ≤ mn ∧ mn ≤ 12 ∧ 1 ≤ dn ∧ dn ≤ 31 then
          some (yn, mn)
        else none
    | _, _, _ => none
  | _ => none

/-- Zero-pad a month number to two digits (`Period.astype(str)` format). -/
def pad2 (n : Nat) : String :=
  if n < 10 then "0" ++ toString n else toString n

/-- Zero-pad a year number to four digits (`Period.astype(str)` format). -/
def pad4 (n : Nat) : String :=
  if n < 10 then "000" ++ toString n
  else if n < 100 then "00" ++ toString n
  else if n < 1000 then "0" ++ toString n
  else toString n

/-- The `month_year` label of line 112, e.g. `2023-01`. -/
def monthLabel (ym : Nat × Nat) : String :=
  pad4 ym.1 ++ "-" ++ pad2 ym.2

/-- Chronological order on `(year, month)` pairs; coincides with
lexicographic order on the zero-padded labels. -/
def ymLE (a b : Nat × Nat) : Prop :=
  a.1 < b.1 ∨ (a.1 = b.1 ∧ a.2 ≤ b.2)

instance : DecidableRel ymLE := fun a b => by
  unfold ymLE; infer_instance

/-- Embedding of lines 112-114: label each surviving date's month,
`groupby(month_year).size()` (one row per distinct month, counted), and
sort chronologically — the distinct months in ascending order, each with
its multiplicity. -/
def monthlySeries (months : List (Nat × Nat)) : List (String × Nat) :=
  ((months.insertionSort ymLE).dedup).map
    (fun k => (monthLabel k, months.countP (fun m => decide (m = k))))

/-- A `doi` cell as `pd.to_datetime(errors=coerce)` sees it: date strings
parse (or coerce to `NaT`), nulls and non-strings coerce to `NaT` and are
dropped by `dropna`. -/
def valToMonth : Value → Option (Nat × Nat)
  | Value.str s => parseDate s
  | _ => none

/-- Monthly counts for a list of raw date strings (the `doi` column). -/
def monthlyCounts (dates : List String) : List (String × Nat) :=
  monthlySeries (dates.filterMap parseDate)

/-- Embedding of `plot_bribes_over_time` (lines 94-122) as a function of
the upstream DataFrame: "no data" when the frame is empty, the `doi`
column is absent, or no date survives coercion; otherwise the monthly
series. -/
def plot_bribes_over_time (df : DataFrame) :
    Except Err (Option (List (String × Nat))) :=
  if df.empty || !(df.cols.contains "doi") then Except.ok none
  else
    match df.getCol "doi" with
    | none => Except.error Err.keyError
    | some col =>
      let months := col.filterMap valToMonth
      if months.isEmpty then Except.ok none
      else Except.ok (some (monthlySeries months))

/-! ## Helper lemmas -/

theorem failingCall_borrowed (ps : PoolState) :
    (failingCall ps).borrowed = ps.borrowed := by
  simp [failingCall, get_data_as_dataframe, putconn, getconn]

theorem distributionCounts_labels (amts : List ℚ) :
    (distributionCounts amts).map Prod.fst = bin_labels := by
  unfold distributionCounts
  rw [List.map_map]
  show (List.range bin_labels.length).map (fun i => bin_labels.getD i "") = bin_labels
  decide

theorem inBin_eq_true_iff (i : Nat) (x : ℚ) :
    inBin i x = true ↔
      (bin_edges.getD i 0 < x ∧
        (bin_edges.length ≤ i + 1 ∨ x ≤ bin_edges.getD (i + 1) 0)) := by
  unfold inBin
  simp

theorem edges_mono : ∀ a ∈ List.range 12, ∀ b ∈ List.range 12, a ≤ b →
    bin_edges.getD a 0 ≤ bin_edges.getD b 0 := by decide

theorem edges_nonneg : ∀ a ∈ List.range 12, 0 ≤ bin_edges.getD a 0 := by decide

theorem inBin_unique (x : ℚ) : ∀ i j, i < 12 → j < 12 →
    inBin i x = true → inBin j x = true → i = j := by
  have key : ∀ i j, i < j → j < 12 → inBin i x = true → inBin j x = true → False := by
    intro i j hij hj hbi hbj
    rw [inBin_eq_true_iff] at hbi hbj
    have hlen : ¬ (bin_edges.length ≤ i + 1) := by
      simp only [bin_edges, List.length_cons, List.length_nil]
      omega
    have hxle : x ≤ bin_edges.getD (i + 1) 0 := hbi.2.resolve_left hlen
    have hmono : bin_edges.getD (i + 1) 0 ≤ bin_edges.getD j 0 :=
      edges_mono (i + 1) (List.mem_range.mpr (by omega)) j (List.mem_range.mpr hj)
        (by omega)
    linarith [hbj.1]
  intro i j hi hj hbi hbj
  rcases Nat.lt_trichotomy i j with h | h | h
  · exact (key i j h hj hbi hbj).elim
  · exact h
  · exact (key j i h hi hbj hbi).elim

theorem inBin_exists (x : ℚ) (hx : 0 < x) : ∃ i, i < 12 ∧ inBin i x = true := by
  rcases le_or_lt x 500 with h1 | h1
  · exact ⟨0, by norm_num, by
      rw [inBin_eq_true_iff]
      exact ⟨by simpa [bin_edges] using hx, Or.inr (by simpa [bin_edges] using h1)⟩⟩
  rcases le_or_lt x 1000 with h2 | h2
  · exact ⟨1, by norm_num, by
      rw [inBin_eq_true_iff]
      exact ⟨by simpa [bin_edges] using h1, Or.inr (by simpa [bin_edges] using h2)⟩⟩
  rcases le_or_lt x 1500 with h3 | h3
  · exact ⟨2, by norm_num, by
      rw [inBin_eq_true_iff]
      exact ⟨by simpa [bin_edges] using h2, Or.inr (by simpa [bin_edges] using h3)⟩⟩
  rcases le_or_lt x 2000 with h4 | h4
  · exact ⟨3, by norm_num, by
      rw [inBin_eq_true_iff]
      exact ⟨by simpa [bin_edges] using h3, Or.inr (by simpa [bin_edges] using h4)⟩⟩
  rcases le_or_lt x 3000 with h5 | h5
  · exact ⟨4, by norm_num, by
      rw [inBin_eq_true_iff]
      exact ⟨by simpa [bin_edges] using h4, Or.inr (by simpa [bin_edges] using h5)⟩⟩
  rcases le_or_lt x 5000 with h6 | h6
  · exact ⟨5, by norm_num, by
      rw [inBin_eq_true_iff]
      exact ⟨by simpa [bin_edges] using h5, Or.inr (by simpa [bin_edges] using h6)⟩⟩
  rcases le_or_lt x 10000 with h7 | h7
  · exact ⟨6, by norm_num, by
      rw [inBin_eq_true_iff]
      exact ⟨by simpa [bin_edges] using h6, Or.inr (by simpa [bin_edges] using h7)⟩⟩
  rcases le_or_lt x 20000 with h8 | h8
  · exact ⟨7, by norm_num, by
      rw [inBin_eq_true_iff]
      exact ⟨by simpa [bin_edges] using h7, Or.inr (by simpa [bin_edges] using h8)⟩⟩
  rcases le_or_lt x 30000 with h9 | h9
  · exact ⟨8, by norm_num, by
      rw [inBin_eq_true_iff]
      exact ⟨by simpa [bin_edges] using h8, Or.inr (by simpa [bin_edges] using h9)⟩⟩
  rcases le_or_lt x 40000 with h10 | h10
  · exact ⟨9, by norm_num, by
      rw [inBin_eq_true_iff]
      exact ⟨by simpa [bin_edges] using h9, Or.inr (by simpa [bin_edges] using h10)⟩⟩
  rcases le_or_lt x 50000 with h11 | h11
  · exact ⟨10, by norm_num, by
      rw [inBin_eq_true_iff]
      exact ⟨by simpa [bin_edges] using h10, Or.inr (by simpa [bin_edges] using h11)⟩⟩
  exact ⟨11, by norm_num, by
    rw [inBin_eq_true_iff]
    exact ⟨by simpa [bin_edges] using h11, Or.inl (by simp [bin_edges])⟩⟩

theorem inBin_false_of_gt (x : ℚ) (hx : 50000 < x) (i : Nat) (hi : i < 11) :
    inBin i x = false := by
  rw [Bool.eq_false_iff, Ne, inBin_eq_true_iff]
  rintro ⟨-, hor⟩
  have hlen : ¬ (bin_edges.length ≤ i + 1) := by
    simp only [bin_edges, List.length_cons, List.length_nil]
    omega
  have h2 : x ≤ bin_edges.getD (i + 1) 0 := hor.resolve_left hlen
  have h3 : bin_edges.getD (i + 1) 0 ≤ bin_edges.getD 11 0 :=
    edges_mono (i + 1) (List.mem_range.mpr (by omega)) 11 (by decide) (by omega)
  have h4 : bin_edges.getD 11 0 = 50000 := by simp [bin_edges]
  linarith

theorem inBin_false_of_nonpos (x : ℚ) (hx : x ≤ 0) (i : Nat) (hi : i < 12) :
    inBin i x = false := by
  rw [Bool.eq_false_iff, Ne, inBin_eq_true_iff]
  rintro ⟨hlt, -⟩
  have h0 : (0 : ℚ) ≤ bin_edges.getD i 0 := edges_nonneg i (List.mem_range.mpr hi)
  linarith

/-! ## Claim theorems -/

/-- C1, counterexample to the claim as stated: the amount `0` is a
non-negative real, yet `pd.cut` over edges starting at `0` with
`right=True` puts it in no bucket at all (it falls below the first
half-open interval `(0, 500]`): the bucket assignment is not total on
the non-negative reals. -/
theorem amount_zero_in_no_bucket :
    bucketIdx 0 = none ∧ (List.range 12).countP (fun i => inBin i 0) = 0 := by
  decide

/-- C1, amended: for every strictly positive amount the bucket
assignment is total (exactly one of the 12 buckets matches) and
right-inclusive (`500` lands in bucket 0, `₹1-500`, and `501` in bucket
1, `₹501-1000`); the input amounts `[500, 501, 2000, 2001]` yield count
1 in buckets `₹1-500`, `₹501-1000`, `₹1501-2000`, `₹2001-3000` and count
0 elsewhere.  Amount 0 itself belongs to no bucket. -/
theorem bucket_assignment_total_on_positives (x : ℚ) (hx : 0 < x) :
    (∃! i, i < 12 ∧ inBin i x = true) ∧
    bucketIdx 500 = some 0 ∧ bucketIdx 501 = some 1 ∧
    distributionCounts [500, 501, 2000, 2001] =
      [("₹1-500", 1), ("₹501-1000", 1), ("₹1001-1500", 0), ("₹1501-2000", 1),
       ("₹2001-3000", 1), ("₹3001-5000", 0), ("₹5001-10000", 0),
       ("₹10001-20000", 0), ("₹20001-30000", 0), ("₹30001-40000", 0),
       ("₹40001-50000", 0), (">₹50000", 0)] := by
  refine ⟨?_, by decide, by decide, by decide⟩
  obtain ⟨i, hi, hbin⟩ := inBin_exists x hx
  exact ⟨i, ⟨hi, hbin⟩, fun j hj => inBin_unique x j i hj.1 hi hj.2 hbin⟩

/-- C1, witness: the amended theorem applied at the concrete amount 3. -/
theorem bucket_assignment_total_on_positives_witness :
    (0 : ℚ) < 3 ∧ (∃! i, i < 12 ∧ inBin i (3 : ℚ) = true) :=
  ⟨by norm_num, (bucket_assignment_total_on_positives 3 (by norm_num)).1⟩

/-- C2, counterexample to the claim as stated: an amount below 0 (here
`-5`) is not assigned to the last open-ended bucket `>₹50000` — it is
assigned to no bucket and silently dropped from the counts. -/
theorem negative_amount_dropped_not_last_bucket :
    bucketIdx (-5) = none ∧
    ¬ ((">₹50000", 1) ∈ distributionCounts [(-5 : ℚ)]) ∧
    distributionCounts [(-5 : ℚ)] = bin_labels.map (fun l => (l, 0)) := by
  decide

/-- C2, amended: amounts at or below 0 fall below the first bin edge and
are assigned to no bucket (dropped from the distribution without error),
while any amount above the top finite boundary 50000 falls into the
last, open-ended bucket (index 11, `>₹50000`). -/
theorem out_of_range_amount_assignment (x : ℚ) :
    (x ≤ 0 → bucketIdx x = none) ∧ (50000 < x → bucketIdx x = some 11) := by
  constructor
  · intro hx
    unfold bucketIdx
    rw [List.find?_eq_none]
    intro i hi
    simp [inBin_false_of_nonpos x hx i (List.mem_range.mp hi)]
  · intro hx
    unfold bucketIdx
    have h11 : inBin 11 x = true := by
      rw [inBin_eq_true_iff]
      exact ⟨by simpa [bin_edges] using hx, Or.inl (by simp [bin_edges])⟩
    rw [show List.range 12 = [0, 1, 2, 3, 4, 5, 6, 7, 8, 9, 10, 11] from rfl]
    simp [List.find?, h11, inBin_false_of_gt x hx]

/-- C2, witness: the amended theorem applied at the concrete amounts
`-3` (dropped) and `60000` (last bucket). -/
theorem out_of_range_amount_assignment_witness :
    bucketIdx (-3) = none ∧ bucketIdx 60000 = some 11 :=
  ⟨(out_of_range_amount_assignment (-3)).1 (by norm_num),
   (out_of_range_amount_assignment 60000).2 (by norm_num)⟩

/-- C3, counterexample to the claim as stated: with the single input
amount `500`, the emitted result still contains the zero-count bucket
`₹501-1000` (and has all 12 rows): `value_counts()` on a categorical
column reports every category, including those with count zero, so
zero-count buckets are not dropped. -/
theorem zero_count_bucket_not_dropped :
    ("₹501-1000", 0) ∈ distributionCounts [(500 : ℚ)] ∧
    (distributionCounts [(500 : ℚ)]).length = 12 := by
  decide

/-- C3, amended: the default amount-distribution variant retains every
bucket: the emitted result always has exactly the 12 bucket labels, in
the fixed label order, with zero counts included rather than dropped. -/
theorem distribution_retains_all_buckets (amts : List ℚ) :
    (distributionCounts amts).length = 12 ∧
    (distributionCounts amts).map Prod.fst = bin_labels := by
  refine ⟨?_, distributionCounts_labels amts⟩
  simp [distributionCounts, bin_labels]

/-- C4, counterexample to the claim as stated: two groups with equal
summed amounts (states `A` and `B`, both totalling 10) make the grouped
result non-strictly descending, so "sorted strictly descending by summed
amount" fails. -/
theorem grouped_totals_tie_not_strict :
    groupTotals [("A", (10 : ℚ)), ("B", 10)] = [("A", 10), ("B", 10)] ∧
    ¬ List.Chain' (fun a b : String × ℚ => b.2 < a.2)
        (groupTotals [("A", (10 : ℚ)), ("B", 10)]) := by
  have h1 : (decide ("A" = "B")) = false := rfl
  have h2 : (decide ("B" = "A")) = false := rfl
  constructor <;>
    norm_num [groupTotals, amtGE, List.insertionSort, List.orderedInsert, List.dedup,
      List.pwFilter, List.filter, h1, h2]

/-- C4, amended: every grouped-totals result is sorted in descending
(non-increasing, ties allowed) order of summed amount, the top-N variants
(`LIMIT n`) return at most `n` groups and stay sorted, and the default
caps are 15 for departments and 20 for districts. -/
theorem grouped_totals_sorted_desc_and_capped (rows : List (String × ℚ)) (n : Nat) :
    List.Sorted amtGE (groupTotals rows) ∧
    List.Sorted amtGE (topNTotals n rows) ∧
    (topNTotals n rows).length ≤ n ∧
    departments_default_top_n = 15 ∧ districts_default_top_n = 20 := by
  have hs : List.Sorted amtGE (groupTotals rows) := by
    unfold groupTotals
    exact List.sorted_insertionSort amtGE _
  refine ⟨hs, ?_, ?_, rfl, rfl⟩
  · exact hs.sublist (List.take_sublist n _)
  · simp [topNTotals]

/-- C5, counterexample to the claim as stated: on a non-empty upstream
table lacking the expected `bribe_amt` column, the amount-distribution
function does not return the "no data" signal — it raises a `KeyError`
(line 52 accesses the column with no presence check). -/
theorem distribution_missing_column_errors :
    plot_bribe_amount_distribution ⟨["x"], [[Value.num 1]]⟩ =
      Except.error Err.keyError := by
  rfl

/-- C5, amended: every aggregation function returns the "no data" signal
on an empty upstream table; the by-state, by-department, by-district and
time-series functions also return it when an expected column is absent,
and the time series additionally when no valid date survives coercion —
but the amount-distribution function checks only emptiness and raises on
a non-empty table lacking its expected column. -/
theorem no_data_signal_on_empty_or_missing (df : DataFrame) :
    (df.rows = [] →
      plot_bribe_amount_distribution df = Except.ok none ∧
      plot_total_bribe_amount_by_state df = Except.ok none ∧
      plot_top_departments_by_bribe_amount df = Except.ok none ∧
      plot_top_districts_by_bribe_amount df = Except.ok none ∧
      plot_bribes_over_time df = Except.ok none) ∧
    (¬ "state_ut" ∈ df.cols → plot_total_bribe_amount_by_state df = Except.ok none) ∧
    (¬ "total_amount" ∈ df.cols →
      plot_total_bribe_amount_by_state df = Except.ok none ∧
      plot_top_departments_by_bribe_amount df = Except.ok none ∧
      plot_top_districts_by_bribe_amount df = Except.ok none) ∧
    (¬ "dept" ∈ df.cols → plot_top_departments_by_bribe_amount df = Except.ok none) ∧
    (¬ "district" ∈ df.cols → plot_top_districts_by_bribe_amount df = Except.ok none) ∧
    (¬ "doi" ∈ df.cols → plot_bribes_over_time df = Except.ok none) ∧
    (∀ col, df.getCol "doi" = some col → col.filterMap valToMonth = [] →
      plot_bribes_over_time df = Except.ok none) := by
  refine ⟨?_, ?_, ?_, ?_, ?_, ?_, ?_⟩
  · intro h
    refine ⟨?_, ?_, ?_, ?_, ?_⟩ <;>
      simp [plot_bribe_amount_distribution, plot_total_bribe_amount_by_state,
        plot_top_departments_by_bribe_amount, plot_top_districts_by_bribe_amount,
        plot_bribes_over_time, DataFrame.empty, h]
  · intro h
    simp [plot_total_bribe_amount_by_state, DataFrame.empty, h]
  · intro h
    refine ⟨?_, ?_, ?_⟩ <;>
      simp [plot_total_bribe_amount_by_state, plot_top_departments_by_bribe_amount,
        plot_top_districts_by_bribe_amount, DataFrame.empty, h]
  · intro h
    simp [plot_top_departments_by_bribe_amount, DataFrame.empty, h]
  · intro h
    simp [plot_top_districts_by_bribe_amount, DataFrame.empty, h]
  · intro h
    simp [plot_bribes_over_time, DataFrame.empty, h]
  · intro col hcol hempty
    unfold plot_bribes_over_time
    by_cases hc : (df.empty || !(df.cols.contains "doi")) = true
    · rw [if_pos hc]
    · rw [if_neg hc, hcol]
      simp [hempty]

/-- C5, witness: the amended theorem applied to the empty frame, to a
non-empty frame lacking `state_ut`, and to a frame whose only date fails
to parse. -/
theorem no_data_signal_on_empty_or_missing_witness :
    plot_bribe_amount_distribution ⟨[], []⟩ = Except.ok none ∧
    plot_total_bribe_amount_by_state ⟨["x"], [[Value.num 1]]⟩ = Except.ok none ∧
    plot_bribes_over_time ⟨["doi"], [[Value.str "nope"]]⟩ = Except.ok none :=
  ⟨((no_data_signal_on_empty_or_missing ⟨[], []⟩).1 rfl).1,
   (no_data_signal_on_empty_or_missing ⟨["x"], [[Value.num 1]]⟩).2.1 (by decide),
   (no_data_signal_on_empty_or_missing ⟨["doi"], [[Value.str "nope"]]⟩).2.2.2.2.2.2
     [Value.str "nope"] rfl rfl⟩

/-- C6: on the upstream dates `["2023-01-15", "bad-date", "2023-01-20",
"2023-02-01"]` the monthly time series silently excludes the unparseable
row (`bad-date` coerces to `NaT` and is dropped) and yields exactly
`[("2023-01", 2), ("2023-02", 1)]`, in ascending month order. -/
theorem monthly_series_example :
    parseDate "bad-date" = none ∧
    plot_bribes_over_time ⟨["doi"],
      [[Value.str "2023-01-15"], [Value.str "bad-date"],
       [Value.str "2023-01-20"], [Value.str "2023-02-01"]]⟩ =
      Except.ok (some [("2023-01", 2), ("2023-02", 1)]) :=
  ⟨rfl, rfl⟩

/-- C7: the amount-distribution output is invariant under any
permutation of the input rows, and its buckets always appear in the
fixed ascending-boundary label order `bin_labels` (never re-sorted by
count). -/
theorem distribution_order_invariant (l1 l2 : List ℚ) (h : l1.Perm l2) :
    distributionCounts l1 = distributionCounts l2 ∧
    (distributionCounts l1).map Prod.fst = bin_labels := by
  refine ⟨?_, distributionCounts_labels l1⟩
  unfold distributionCounts
  exact List.map_congr_left (fun i _ => by rw [h.countP_eq])

/-- C7, witness: the theorem applied to the concrete permutation
`[1, 2] ~ [2, 1]`. -/
theorem distribution_order_invariant_witness :
    ([(1 : ℚ), 2].Perm [2, 1]) ∧
    distributionCounts [(1 : ℚ), 2] = distributionCounts [2, 1] :=
  ⟨by decide, (distribution_order_invariant [1, 2] [2, 1] (by decide)).1⟩

/-- C8: whenever a connection is successfully acquired, it is returned
to the pool on every exit path — after the call the number of borrowed
connections equals its pre-call value, both when the query succeeds
(empty or not) and when it raises mid-statement; consequently any
sequence of `n` failing calls leaves the pool undepleted. -/
theorem connection_always_returned (ps : PoolState) (outcome : QueryOutcome)
    (n : Nat) :
    ((get_data_as_dataframe ps true outcome).2).borrowed = ps.borrowed ∧
    (failingCall^[n] ps).borrowed = ps.borrowed := by
  constructor
  · cases outcome with
    | fetched cols rows =>
        by_cases h : rows.isEmpty <;>
          simp [get_data_as_dataframe, putconn, getconn, h]
    | raiseQuery => simp [get_data_as_dataframe, putconn, getconn]
  · induction n with
    | zero => rfl
    | succ k ih =>
        rw [Function.iterate_succ_apply', failingCall_borrowed, ih]

/-- C9: when acquiring a connection from the pool itself fails, the
call propagates exactly that failure and performs no pool-return call —
the pool state (borrowed count and `putconn` call count) is returned
completely unchanged. -/
theorem getconn_failure_leaves_pool_unchanged (ps : PoolState)
    (outcome : QueryOutcome) :
    get_data_as_dataframe ps false outcome = (Except.error Err.connError, ps) := by
  simp [get_data_as_dataframe]

/-- C10: for every input list of date strings, the per-month counts of
the monthly time series sum to exactly the number of rows whose date
parses — no parse-surviving row is lost or double-counted. -/
theorem monthly_counts_preserve_rows (dates : List String) :
    ((monthlyCounts dates).map Prod.snd).sum = (dates.filterMap parseDate).length := by
  unfold monthlyCounts monthlySeries
  rw [List.map_map]
  set months := dates.filterMap parseDate with hm
  have hperm := List.perm_insertionSort ymLE months
  have h1 : (Prod.snd ∘ fun k => (monthLabel k, months.countP (fun m => decide (m = k)))) =
      fun k => @List.count _ instBEqOfDecidableEq k months := rfl
  rw [h1]
  have h2 : ∀ k ∈ (months.insertionSort ymLE).dedup,
      @List.count _ instBEqOfDecidableEq k months =
      @List.count _ instBEqOfDecidableEq k (months.insertionSort ymLE) :=
    fun k _ => (hperm.count_eq k).symm
  rw [List.map_congr_left h2]
  rw [List.sum_map_count_dedup_eq_length]
  exact hperm.length_eq

end Bribe
